import Mathlib

/-!
Verification development for the doi-jekyll tool.

The repository has two near-duplicate implementations:
  * a standalone script doi-jekyll.py (modelled in namespace StdAlone),
  * a package doijekyll/ with doijekyll.py and metadata.py
    (modelled in namespace Pkg).
Shared data structures (Python values, dictionaries, the deep merge of
the mergedeep library) are modelled at top level.
-/

set_option autoImplicit false

/-- Model of a Python value as it occurs in the YAML front-matter and the
assembled metadata record: None, strings, lists and insertion-ordered
dictionaries. -/
inductive Val where
  | vnull : Val
  | vstr : String → Val
  | vlist : List Val → Val
  | vdict : List (String × Val) → Val

/-- A Python dictionary: an insertion-ordered association list. -/
abbrev PyDict := List (String × Val)

/-- Key lookup, as Python d[k] and the membership test (first matching entry). -/
def lookupKey (d : PyDict) (k : String) : Option Val :=
  match d with
  | [] => none
  | (k', v) :: rest => if k' = k then some v else lookupKey rest k

/-- Python membership test k in d. -/
def hasKey (d : PyDict) (k : String) : Bool :=
  (lookupKey d k).isSome

/-- Python assignment d[k] = v: replace the value at an existing key in
place, otherwise append the new entry at the end (insertion order). -/
def setKey (d : PyDict) (k : String) (v : Val) : PyDict :=
  match d with
  | [] => [(k, v)]
  | (k', v') :: rest => if k' = k then (k', v) :: rest else (k', v') :: setKey rest k v

/-- Python dict.update, the merge operators of dicts: shallow merge, values
of the right operand win, key positions of the left operand are kept. -/
def pyUpdate (dest src : PyDict) : PyDict :=
  src.foldl (fun d kv => setKey d kv.1 kv.2) dest

mutual
/-- One key step of the mergedeep REPLACE strategy: if both sides hold a
mapping they are merged recursively, otherwise the source value wins. -/
def mergeVal : Val → Val → Val
  | Val.vdict dv, Val.vdict sv => Val.vdict (deepMerge dv sv)
  | _, s => s
termination_by _ s => sizeOf s
decreasing_by
  all_goals simp_wf

/-- The recursive merge of the mergedeep library with its default REPLACE
strategy, as called by metadata.assembleMetadata: iterate over the source
entries, merging each into the destination. -/
def deepMerge : PyDict → PyDict → PyDict
  | dest, [] => dest
  | dest, (k, v) :: rest =>
    deepMerge
      (setKey dest k
        (match lookupKey dest k with
         | some d => mergeVal d v
         | none => v))
      rest
termination_by _ src => sizeOf src
decreasing_by
  all_goals simp_wf
  all_goals omega
end

theorem lookupKey_setKey_same (d : PyDict) (k : String) (v : Val) :
    lookupKey (setKey d k v) k = some v := by
  induction d with
  | nil => simp [setKey, lookupKey]
  | cons hd tl ih =>
    obtain ⟨k', v'⟩ := hd
    by_cases h : k' = k
    · simp [setKey, lookupKey, h]
    · simp [setKey, lookupKey, h, ih]

theorem lookupKey_setKey_other (d : PyDict) (k k' : String) (v : Val) (hne : k' ≠ k) :
    lookupKey (setKey d k v) k' = lookupKey d k' := by
  have hne' : ¬ (k = k') := fun h => hne h.symm
  induction d with
  | nil => simp [setKey, lookupKey, hne']
  | cons hd tl ih =>
    obtain ⟨k₀, v₀⟩ := hd
    by_cases h : k₀ = k
    · subst h
      simp [setKey, lookupKey, hne']
    · simp [setKey, lookupKey, h, ih]

/-- Keys absent from the source are untouched by the deep merge. -/
theorem deepMerge_lookup_none (src : PyDict) : ∀ (dest : PyDict) (k : String),
    lookupKey src k = none → lookupKey (deepMerge dest src) k = lookupKey dest k := by
  induction src with
  | nil => intro dest k _; rw [deepMerge]
  | cons hd rest ih =>
    intro dest k hk
    obtain ⟨k₀, v₀⟩ := hd
    rw [deepMerge]
    have hne : k₀ ≠ k := by
      intro h
      simp [lookupKey, h] at hk
    have hk' : lookupKey rest k = none := by
      simpa [lookupKey, hne] using hk
    rw [ih _ k hk', lookupKey_setKey_other _ _ _ _ hne.symm]

/-- When the source value is not a mapping it always replaces the
destination value. -/
theorem mergeVal_of_not_dict (d s : Val) (hs : ∀ sv, s ≠ Val.vdict sv) :
    mergeVal d s = s := by
  cases d <;> cases s <;>
    first
      | exact absurd rfl (hs _)
      | (rw [mergeVal.eq_def])

/-- A key that occurs in no entry of a dictionary has no lookup result. -/
theorem lookupKey_eq_none_of_not_mem (d : PyDict) (k : String)
    (hk : k ∉ d.map Prod.fst) : lookupKey d k = none := by
  induction d with
  | nil => rfl
  | cons hd tl ih =>
    obtain ⟨k₀, v₀⟩ := hd
    rw [List.map_cons] at hk
    rw [List.mem_cons] at hk
    push_neg at hk
    simp only [lookupKey, if_neg (Ne.symm hk.1)]
    exact ih hk.2

/-- A key present in a duplicate-free source ends up in the deep merge
carrying the one-step merge of the two values. -/
theorem deepMerge_lookup_some (src : PyDict) : ∀ (dest : PyDict) (k : String) (v : Val),
    (src.map Prod.fst).Nodup → lookupKey src k = some v →
    lookupKey (deepMerge dest src) k =
      some (match lookupKey dest k with
            | some d => mergeVal d v
            | none => v) := by
  induction src with
  | nil => intro dest k v _ hk; simp [lookupKey] at hk
  | cons hd rest ih =>
    intro dest k v hnodup hk
    obtain ⟨k₀, v₀⟩ := hd
    rw [List.map_cons] at hnodup
    have hnd := List.nodup_cons.mp hnodup
    rw [deepMerge]
    by_cases h : k₀ = k
    · subst h
      have hv : v₀ = v := by simpa [lookupKey] using hk
      subst hv
      have hrest : lookupKey rest k₀ = none :=
        lookupKey_eq_none_of_not_mem rest k₀ hnd.1
      rw [deepMerge_lookup_none rest _ k₀ hrest]
      rw [lookupKey_setKey_same]
    · have hk' : lookupKey rest k = some v := by
        simpa [lookupKey, h] using hk
      rw [ih _ k v hnd.2 hk']
      rw [lookupKey_setKey_other _ _ _ _ (fun hh => h hh.symm)]

/-- UTF-8 encoding of a single character, as Python string encode. -/
def utf8Bytes (c : Char) : List Nat :=
  let n := c.toNat
  if n < 128 then [n]
  else if n < 2048 then [192 + n / 64, 128 + n % 64]
  else if n < 65536 then [224 + n / 4096, 128 + (n / 64) % 64, 128 + n % 64]
  else [240 + n / 262144, 128 + (n / 4096) % 64, 128 + (n / 64) % 64, 128 + n % 64]

/-- UTF-8 byte sequence of a string, as Python string encode. -/
def strBytes (s : String) : List Nat :=
  (s.data.map utf8Bytes).flatten

/-- The standard base64 alphabet used by Python base64.b64encode. -/
def b64Alphabet : List Char :=
  "ABCDEFGHIJKLMNOPQRSTUVWXYZabcdefghijklmnopqrstuvwxyz0123456789+/".data

/-- Character of the base64 alphabet at a 6-bit index. -/
def b64Char (n : Nat) : Char :=
  b64Alphabet.getD n '='

/-- Base64 encoding (RFC 4648 with padding), as Python base64.b64encode. -/
def b64Encode : List Nat → List Char
  | [] => []
  | [a] => [b64Char (a / 4), b64Char ((a % 4) * 16), '=', '=']
  | [a, b] => [b64Char (a / 4), b64Char ((a % 4) * 16 + b / 16), b64Char ((b % 16) * 4), '=']
  | a :: b :: c :: rest =>
    b64Char (a / 4) :: b64Char ((a % 4) * 16 + b / 16) ::
      b64Char ((b % 16) * 4 + c / 64) :: b64Char (c % 64) :: b64Encode rest

/-- The genDoi function, identical in doi-jekyll.py (lines 54-64) and
doijekyll/doijekyll.py (lines 57-67): base64-encode the UTF-8 bytes of the
title, slice the first 6 bytes of the encoding, decode the slice back to
text and compose the DOI name. The Python parameter named prefix is
rendered pfx here because prefix is a reserved word in Lean. -/
def genDoi (title base pfx : String) : String :=
  let b64 : List Nat := (b64Encode (strBytes title)).map Char.toNat
  let b64_short := b64.take 6
  pfx ++ "/" ++ base ++ "-" ++ String.mk (b64_short.map Char.ofNat)

/-- Modelled from the wording of spec section 4.1: the identifier is the
string prefix/base-first6 where first6 is the first 6 characters of the
base64 encoding of the UTF-8 bytes of the title. -/
def genDoiSpec (title base pfx : String) : String :=
  pfx ++ "/" ++ base ++ "-" ++ String.mk ((b64Encode (strBytes title)).take 6)

/-- Evaluation of the identifier generator at the scenario title. -/
theorem genDoi_helloWorld : genDoi "Hello World" "blog" "10.1234" = "10.1234/blog-SGVsbG" := by
  rfl

/-- C3: for every title, base and prefix, the identifier generator is a
pure deterministic total function (two calls with identical inputs yield
identical output) whose result equals prefix/base-first6, where first6 is
the first 6 characters of the base64 encoding of the UTF-8 bytes of the
title. -/
theorem C3_genDoi_deterministic_and_spec (title base pfx : String) :
    genDoi title base pfx = genDoi title base pfx ∧
    genDoi title base pfx = genDoiSpec title base pfx := by
  refine ⟨rfl, ?_⟩
  have hl : (((b64Encode (strBytes title)).map Char.toNat).take 6).map Char.ofNat
      = (b64Encode (strBytes title)).take 6 := by
    rw [← List.map_take, List.map_map]
    have hcomp : (Char.ofNat ∘ Char.toNat) = id := funext fun c => Char.ofNat_toNat c
    rw [hcomp, List.map_id]
  show pfx ++ "/" ++ base ++ "-" ++
      String.mk ((((b64Encode (strBytes title)).map Char.toNat).take 6).map Char.ofNat) =
    genDoiSpec title base pfx
  rw [hl]
  rfl

/-- Python exceptions and process exits that the modelled code can raise. -/
inductive PyErr where
  | keyError : String → PyErr
  | typeErr : String → PyErr
  | nameError : String → PyErr
  | attributeError : String → PyErr
  | systemExit : PyErr
  | exitMsg : String → PyErr

/-- ASCII lower-casing of one character. Python str.lower performs full
Unicode case mapping; on the ASCII short codes of the license table the
two notions agree, because no character outside ASCII lower-cases to a
character of the codes mit, cc0, cc-by4 or gpl3. -/
def pyLowerChar (c : Char) : Char :=
  if 65 ≤ c.toNat ∧ c.toNat ≤ 90 then Char.ofNat (c.toNat + 32) else c

/-- Python str.lower restricted to ASCII case mapping. -/
def pyLower (s : String) : String :=
  String.mk (s.data.map pyLowerChar)

/-- Python truthiness of a value (empty collections, empty strings and
None are falsy). -/
def pyTruthy : Val → Bool
  | Val.vnull => false
  | Val.vstr s => !s.isEmpty
  | Val.vlist l => !l.isEmpty
  | Val.vdict d => !d.isEmpty

/-- Python str() of a value, as used in f-string interpolation. Only the
string case is exercised by any claim; the repr of container values is not
modelled in detail. -/
def pyStr : Val → String
  | Val.vstr s => s
  | Val.vnull => "None"
  | Val.vlist _ => "<list>"
  | Val.vdict _ => "<dict>"

/-- Required dictionary access, Python d[k]: KeyError when absent. -/
def reqKey (d : PyDict) (k : String) : Except PyErr Val :=
  match lookupKey d k with
  | some v => Except.ok v
  | none => Except.error (PyErr.keyError k)

/-- The rights entry built by parseLicense for a resolved license. -/
def rightsDict (license url : String) : Val :=
  Val.vdict [("@schemeURI", Val.vstr "https://spdx.org/licenses/"),
             ("@rightsIdentifierScheme", Val.vstr "SPDX"),
             ("@rightsIdentifier", Val.vstr license),
             ("@rightsURI", Val.vstr url)]

/-- Core of parseLicense, shared verbatim between metadata.py (lines
24-56) and doi-jekyll.py (lines 65-97): absent license resolves to None
with a warning, the four known short codes resolve case-insensitively to
their SPDX entry, and any other code reaches a sys.exit() call, modelled
by the error value exitErr. In metadata.py the sys module is never
imported, so this call actually raises NameError; in doi-jekyll.py it
raises SystemExit. A non-string license value has no lower() method
(AttributeError). -/
def parseLicenseWith (exitErr : PyErr) (data_post : PyDict) : Except PyErr (Option Val) :=
  match lookupKey data_post "license" with
  | none => Except.ok none
  | some (Val.vstr s) =>
    match pyLower s with
    | "mit" => Except.ok (some (rightsDict "MIT" "https://spdx.org/licenses/MIT.html"))
    | "cc0" => Except.ok (some (rightsDict "CC0-1.0" "https://creativecommons.org/publicdomain/zero/1.0/"))
    | "cc-by4" => Except.ok (some (rightsDict "CC-BY-4.0" "https://creativecommons.org/licenses/by/4.0/"))
    | "gpl3" => Except.ok (some (rightsDict "GPL-3.0-only" "https://opensource.org/licenses/GPL-3.0"))
    | _ => Except.error exitErr
  | some _ => Except.error (PyErr.attributeError "lower")

namespace Pkg

/-- parseLicense of doijekyll/metadata.py: the unknown-license branch calls
sys.exit() without sys in scope, a NameError. -/
def parseLicense (data_post : PyDict) : Except PyErr (Option Val) :=
  parseLicenseWith (PyErr.nameError "sys") data_post

end Pkg

namespace StdAlone

/-- parseLicense of doi-jekyll.py: the unknown-license branch exits the
process via sys.exit(). -/
def parseLicense (data_post : PyDict) : Except PyErr (Option Val) :=
  parseLicenseWith PyErr.systemExit data_post

end StdAlone

/-- C4: for each of the four license codes (compared case-insensitively via
lower-casing) the resolver returns a non-null entry with the correct SPDX
identifier and URL; for every other license string present in the post it
raises a fatal condition aborting the process (a NameError in the package,
SystemExit in the standalone script). -/
theorem C4_parseLicense_table (post : PyDict) (s : String)
    (hl : lookupKey post "license" = some (Val.vstr s)) :
    (pyLower s = "mit" →
      Pkg.parseLicense post =
        Except.ok (some (rightsDict "MIT" "https://spdx.org/licenses/MIT.html")) ∧
      StdAlone.parseLicense post =
        Except.ok (some (rightsDict "MIT" "https://spdx.org/licenses/MIT.html"))) ∧
    (pyLower s = "cc0" →
      Pkg.parseLicense post =
        Except.ok (some (rightsDict "CC0-1.0" "https://creativecommons.org/publicdomain/zero/1.0/")) ∧
      StdAlone.parseLicense post =
        Except.ok (some (rightsDict "CC0-1.0" "https://creativecommons.org/publicdomain/zero/1.0/"))) ∧
    (pyLower s = "cc-by4" →
      Pkg.parseLicense post =
        Except.ok (some (rightsDict "CC-BY-4.0" "https://creativecommons.org/licenses/by/4.0/")) ∧
      StdAlone.parseLicense post =
        Except.ok (some (rightsDict "CC-BY-4.0" "https://creativecommons.org/licenses/by/4.0/"))) ∧
    (pyLower s = "gpl3" →
      Pkg.parseLicense post =
        Except.ok (some (rightsDict "GPL-3.0-only" "https://opensource.org/licenses/GPL-3.0")) ∧
      StdAlone.parseLicense post =
        Except.ok (some (rightsDict "GPL-3.0-only" "https://opensource.org/licenses/GPL-3.0"))) ∧
    (pyLower s ≠ "mit" → pyLower s ≠ "cc0" → pyLower s ≠ "cc-by4" → pyLower s ≠ "gpl3" →
      Pkg.parseLicense post = Except.error (PyErr.nameError "sys") ∧
      StdAlone.parseLicense post = Except.error PyErr.systemExit) := by
  refine ⟨fun h => ⟨?_, ?_⟩, fun h => ⟨?_, ?_⟩, fun h => ⟨?_, ?_⟩, fun h => ⟨?_, ?_⟩,
    fun h1 h2 h3 h4 => ⟨?_, ?_⟩⟩ <;>
    simp only [Pkg.parseLicense, StdAlone.parseLicense, parseLicenseWith, hl] <;>
    first
      | (rw [h]; rfl)
      | (split <;> simp_all)

/-- Closed instantiation of the license-table theorem: the upper-cased code
MIT resolves to the SPDX entry for MIT, and the unknown code wtfpl aborts. -/
theorem C4_parseLicense_table_witness :
    (Pkg.parseLicense [("license", Val.vstr "MIT")] =
      Except.ok (some (rightsDict "MIT" "https://spdx.org/licenses/MIT.html"))) ∧
    (StdAlone.parseLicense [("license", Val.vstr "wtfpl")] =
      Except.error PyErr.systemExit) :=
 by
  constructor
  · exact ((C4_parseLicense_table [("license", Val.vstr "MIT")] "MIT" rfl).1 (by rfl)).1
  · exact ((C4_parseLicense_table [("license", Val.vstr "wtfpl")] "wtfpl" rfl).2.2.2.2
      (by decide) (by decide) (by decide) (by decide)).2

/-- A calendar date as produced by the external dateparser library. -/
structure Date where
  year : Nat
  month : Nat
  day : Nat

/-- The external lenient date parser (dateparser.parse), an external
collaborator of the tool: it yields a date or None. -/
abbrev DateParser := String → Option Date

/-- Zero-padded decimal rendering, as the strftime format directives. -/
def padNat (width n : Nat) : String :=
  let s := toString n
  if s.length < width then String.mk (List.replicate (width - s.length) '0') ++ s else s

/-- Python str.split() on runs of whitespace, dropping empty pieces. -/
def pySplitWs (s : String) : List String :=
  go s.data []
where
  go : List Char → List Char → List String
    | [], [] => []
    | [], acc => [String.mk acc.reverse]
    | c :: rest, acc =>
      if c.isWhitespace then
        match acc with
        | [] => go rest []
        | _ => String.mk acc.reverse :: go rest []
      else go rest (c :: acc)

/-- The static schema boilerplate (getMdSchema), identical in both files. -/
def getMdSchema : PyDict :=
  [("@xmlns:xsi", Val.vstr "http://www.w3.org/2001/XMLSchema-instance"),
   ("@xmlns", Val.vstr "http://datacite.org/schema/kernel-4"),
   ("@xsi:schemaLocation", Val.vstr "http://datacite.org/schema/kernel-4 http://schema.datacite.org/meta/kernel-4/metadata.xsd")]

/-- getMdIdentifier: identifier section from the doi key of the post. -/
def getMdIdentifier (data_post : PyDict) : Except PyErr PyDict := do
  let doi ← reqKey data_post "doi"
  pure [("identifier", Val.vdict [("@identifierType", Val.vstr "DOI"), ("#text", doi)])]

/-- getMdCreators: creator section from the author record and the blog
affiliation. -/
def getMdCreators (data_blog data_author : PyDict) : Except PyErr PyDict := do
  let name ← reqKey data_author "name"
  let firstName ← reqKey data_author "first_name"
  let lastName ← reqKey data_author "last_name"
  let orcid ← reqKey data_author "orcid_id"
  let affiliation ← reqKey data_blog "affiliation"
  pure [("creators", Val.vdict [("creator", Val.vdict
    [("creatorName", Val.vdict [("@nameType", Val.vstr "Personal"), ("#text", name)]),
     ("givenName", firstName),
     ("familyName", lastName),
     ("nameIdentifier", Val.vdict
       [("@nameIdentifierScheme", Val.vstr "ORCID"),
        ("@schemeURI", Val.vstr "https://orcid.org"),
        ("#text", Val.vstr ("https://orcid.org/" ++ pyStr orcid))]),
     ("affiliation", affiliation)])])]

/-- getMdTitles: title section from the post title. -/
def getMdTitles (data_post : PyDict) : Except PyErr PyDict := do
  let title ← reqKey data_post "title"
  pure [("titles", Val.vdict [("title", Val.vdict
    [("@xml:lang", Val.vstr "en"), ("#text", title)])])]

/-- getMdPublicationYear: parse the post date with the external dateparser
and render the four-digit year. An absent date key raises KeyError, a
non-string date a TypeError inside dateparser, and an unparseable date
makes dateparser return None, on which strftime is an AttributeError. -/
def getMdPublicationYear (pd : DateParser) (data_post : PyDict) : Except PyErr PyDict := do
  let d ← reqKey data_post "date"
  match d with
  | Val.vstr ds =>
    match pd ds with
    | some dt => pure [("publicationYear", Val.vstr (padNat 4 dt.year))]
    | none => Except.error (PyErr.attributeError "strftime")
  | _ => Except.error (PyErr.typeErr "dateparser.parse")

/-- getMdPublisher: publisher passthrough from the blog config. -/
def getMdPublisher (data_blog : PyDict) : Except PyErr PyDict := do
  let p ← reqKey data_blog "publisher"
  pure [("publisher", p)]

/-- getMdResourceType: static resource-type section. -/
def getMdResourceType : PyDict :=
  [("resourceType", Val.vdict [("@resourceTypeGeneral", Val.vstr "Text"),
                               ("#text", Val.vstr "BlogPosting")])]

/-- getMdLanguage: static language section. -/
def getMdLanguage : PyDict :=
  [("language", Val.vstr "en")]

/-- getMdFormats: static formats section. -/
def getMdFormats : PyDict :=
  [("formats", Val.vdict [("format", Val.vstr "HTML")])]

/-- getMdVersion: version from the post, defaulting to 1.0. -/
def getMdVersion (data_post : PyDict) : PyDict :=
  [("version", (lookupKey data_post "version").getD (Val.vstr "1.0"))]

/-- getMdRightsListWith: rights section wrapping the license resolver.
Note that the wrapper does not inspect the resolver result: when the post
has no license the section is still emitted, holding a None rights value. -/
def getMdRightsListWith (exitErr : PyErr) (data_post : PyDict) : Except PyErr PyDict := do
  let r ← parseLicenseWith exitErr data_post
  pure [("rightsList", Val.vdict [("rights", r.getD Val.vnull)])]

/-- getMdSubjects: split the whitespace-separated tags of the post. -/
def getMdSubjects (data_post : PyDict) : Except PyErr PyDict := do
  let t ← reqKey data_post "tags"
  match t with
  | Val.vstr ts =>
    pure [("subjects", Val.vdict [("subject", Val.vlist ((pySplitWs ts).map Val.vstr))])]
  | _ => Except.error (PyErr.attributeError "split")

/-- The descriptions section body built from an abstract value. -/
def descSection (a : Val) : Val :=
  Val.vdict [("description", Val.vdict
    [("@descriptionType", Val.vstr "Abstract"), ("#text", a)])]

/-- getMdDescriptions: abstract section, or the empty dict when the post
carries no abstract (a logged note, not an error). -/
def getMdDescriptions (data_post : PyDict) : PyDict :=
  match lookupKey data_post "abstract" with
  | none => []
  | some a => [("descriptions", descSection a)]

/-- getMdRelToBlog: is-part-of relation to the blog-wide DOI, or the empty
dict when the blog config has no doi key. Present only in metadata.py. -/
def getMdRelToBlog (data_blog : PyDict) : PyDict :=
  match lookupKey data_blog "doi" with
  | none => []
  | some d =>
    [("relatedIdentifiers", Val.vdict [("relatedIdentifier", Val.vdict
      [("@relatedIdentifierType", Val.vstr "DOI"),
       ("@relationType", Val.vstr "IsPartOf"),
       ("#text", d)])])]

/-- addAdditionalMetadata: passthrough of a truthy override value, the
empty dict otherwise. -/
def addAdditionalMetadata (additional_metadata : Val) : Val :=
  if pyTruthy additional_metadata then additional_metadata else Val.vdict []

/-- One override layer of assembleMetadata: mergedeep.merge of the current
record with addAdditionalMetadata of the layer value. Merging a truthy
non-mapping raises inside mergedeep (it iterates the items of the source). -/
def mergeLayer (d : PyDict) (v : Val) : Except PyErr PyDict :=
  match addAdditionalMetadata v with
  | Val.vdict m => Except.ok (deepMerge d m)
  | _ => Except.error (PyErr.attributeError "items")

namespace Pkg

/-- The fixed-section part of metadata.assembleMetadata, metadata.py lines
178-192: the update chain of the fourteen sections, in source order. -/
def assembleFixed (pd : DateParser) (data_blog data_post data_author : PyDict) :
    Except PyErr PyDict := do
  let d0 : PyDict := []
  let d1 := pyUpdate d0 getMdSchema
  let sIdent ← getMdIdentifier data_post
  let d2 := pyUpdate d1 sIdent
  let sCreators ← getMdCreators data_blog data_author
  let d3 := pyUpdate d2 sCreators
  let sTitles ← getMdTitles data_post
  let d4 := pyUpdate d3 sTitles
  let sYear ← getMdPublicationYear pd data_post
  let d5 := pyUpdate d4 sYear
  let sPublisher ← getMdPublisher data_blog
  let d6 := pyUpdate d5 sPublisher
  let d7 := pyUpdate d6 getMdResourceType
  let d8 := pyUpdate d7 getMdLanguage
  let d9 := pyUpdate d8 getMdFormats
  let d10 := pyUpdate d9 (getMdVersion data_post)
  let sRights ← getMdRightsListWith (PyErr.nameError "sys") data_post
  let d11 := pyUpdate d10 sRights
  let sSubjects ← getMdSubjects data_post
  let d12 := pyUpdate d11 sSubjects
  let d13 := pyUpdate d12 (getMdDescriptions data_post)
  let d14 := pyUpdate d13 (getMdRelToBlog data_blog)
  pure d14

/-- metadata.assembleMetadata (metadata.py lines 172-198): the fixed
sections, then the deep merge of the externally supplied override layer,
then the deep merge of the doi-additional-metadata layer embedded in the
post, wrapped in the resource envelope. -/
def assembleMetadata (pd : DateParser) (data_blog data_post data_author : PyDict)
    (additional_metadata : Val) : Except PyErr Val := do
  let base ← assembleFixed pd data_blog data_post data_author
  let afterExternal ← mergeLayer base additional_metadata
  let afterPost ←
    match lookupKey data_post "doi-additional-metadata" with
    | none => pure afterExternal
    | some v => mergeLayer afterExternal v
  pure (Val.vdict [("resource", Val.vdict afterPost)])

end Pkg

namespace StdAlone

/-- assembleMetadata of doi-jekyll.py (lines 193-215): like the package
version but without the blog relation section and without any override
merge layer. -/
def assembleMetadata (pd : DateParser) (data_blog data_post data_author : PyDict) :
    Except PyErr Val := do
  let d0 : PyDict := []
  let d1 := pyUpdate d0 getMdSchema
  let sIdent ← getMdIdentifier data_post
  let d2 := pyUpdate d1 sIdent
  let sCreators ← getMdCreators data_blog data_author
  let d3 := pyUpdate d2 sCreators
  let sTitles ← getMdTitles data_post
  let d4 := pyUpdate d3 sTitles
  let sYear ← getMdPublicationYear pd data_post
  let d5 := pyUpdate d4 sYear
  let sPublisher ← getMdPublisher data_blog
  let d6 := pyUpdate d5 sPublisher
  let d7 := pyUpdate d6 getMdResourceType
  let d8 := pyUpdate d7 getMdLanguage
  let d9 := pyUpdate d8 getMdFormats
  let d10 := pyUpdate d9 (getMdVersion data_post)
  let sRights ← getMdRightsListWith PyErr.systemExit data_post
  let d11 := pyUpdate d10 sRights
  let sSubjects ← getMdSubjects data_post
  let d12 := pyUpdate d11 sSubjects
  let d13 := pyUpdate d12 (getMdDescriptions data_post)
  pure (Val.vdict [("resource", Val.vdict d13)])

end StdAlone

/-- Lookup of a key below the resource envelope of an assembly result. -/
def resourceLookup (x : Except PyErr Val) (k : String) : Option Val :=
  match x with
  | Except.ok (Val.vdict [(rk, Val.vdict res)]) =>
    if rk = "resource" then lookupKey res k else none
  | _ => none

/-- Merging an empty source leaves the destination unchanged. -/
@[simp] theorem deepMerge_nil (dest : PyDict) : deepMerge dest [] = dest := by
  rw [deepMerge]

/-- Unfolding equation for the deep merge on a non-empty source. -/
theorem deepMerge_cons (dest : PyDict) (k : String) (v : Val) (rest : PyDict) :
    deepMerge dest ((k, v) :: rest) =
      deepMerge
        (setKey dest k
          (match lookupKey dest k with
           | some d => mergeVal d v
           | none => v))
        rest := by
  rw [deepMerge]

/-- Inversion of a successful bind in the Except monad. -/
theorem exceptBind_ok {ε α β : Type} (e : Except ε α) (f : α → Except ε β) (b : β)
    (h : (e >>= f) = Except.ok b) : ∃ a, e = Except.ok a ∧ f a = Except.ok b := by
  cases e with
  | error x => simp [Bind.bind, Except.bind] at h
  | ok a => exact ⟨a, rfl, by simpa [Bind.bind, Except.bind] using h⟩

/-- Test fixture: the date parser instantiated on the dates of the
end-to-end scenario of the spec. -/
def exDateParse : DateParser :=
  fun s => if s = "2022-08-01" then some ⟨2022, 8, 1⟩ else none

/-- Test fixture: the blog configuration of the end-to-end scenario. -/
def exampleBlog : PyDict :=
  [("prefix", Val.vstr "10.1234"), ("suffix_base", Val.vstr "blog"),
   ("provider_url", Val.vstr "https://example.org"), ("publisher", Val.vstr "Acme"),
   ("affiliation", Val.vstr "Acme Labs"), ("url", Val.vstr "https://blog.acme.com")]

/-- Test fixture: the author record of the end-to-end scenario. -/
def exampleAuthor : PyDict :=
  [("name", Val.vstr "Stephen King"), ("first_name", Val.vstr "Stephen"),
   ("last_name", Val.vstr "King"), ("orcid_id", Val.vstr "0000-0000-0000-0000")]

/-- Test fixture: the scenario post, without a license key and with the
identifier already injected as the orchestrator does before assembly. -/
def examplePostNoLicense : PyDict :=
  [("title", Val.vstr "Hello World"), ("date", Val.vstr "2022-08-01"),
   ("author", Val.vstr "stephen"), ("tags", Val.vstr "tech science"),
   ("doi", Val.vstr "10.1234/blog-SGVsbG")]

/-- C1: for a post without a license key the resolver does return null,
but the record produced by assembleMetadata nevertheless contains a
rightsList section, holding a null rights value: getMdRightsList wraps the
resolver result unconditionally, so the claimed omission of the section
does not happen. -/
theorem C1_rightsList_emitted_despite_missing_license :
    Pkg.parseLicense examplePostNoLicense = Except.ok none ∧
    resourceLookup
      (Pkg.assembleMetadata exDateParse exampleBlog examplePostNoLicense exampleAuthor
        (Val.vdict []))
      "rightsList" = some (Val.vdict [("rights", Val.vnull)]) := by
  constructor
  · rfl
  · simp [Pkg.assembleMetadata, Pkg.assembleFixed, bind, Except.bind, pure, Except.pure,
      getMdIdentifier, getMdCreators, getMdTitles, getMdPublicationYear, getMdPublisher,
      getMdVersion, getMdRightsListWith, getMdSubjects, getMdDescriptions, getMdRelToBlog,
      getMdSchema, getMdResourceType, getMdLanguage, getMdFormats,
      reqKey, lookupKey, pyUpdate, setKey, parseLicenseWith, pyLower, pyLowerChar,
      exDateParse, exampleBlog, examplePostNoLicense, exampleAuthor, padNat,
      pySplitWs, pySplitWs.go, pyStr, mergeLayer, addAdditionalMetadata, pyTruthy,
      deepMerge_nil, descSection, resourceLookup]

/-- An override layer that does not mention a key leaves that key of the
record unchanged (whatever the layer value, given that the merge
succeeded). -/
theorem mergeLayer_lookup_none (d : PyDict) (v : Val) (d' : PyDict) (k : String)
    (h : mergeLayer d v = Except.ok d')
    (hv : ∀ m, v = Val.vdict m → lookupKey m k = none) :
    lookupKey d' k = lookupKey d k := by
  unfold mergeLayer addAdditionalMetadata at h
  cases v with
  | vnull =>
    simp [pyTruthy] at h
    rw [← h]
  | vstr t =>
    by_cases hs : t.isEmpty
    · simp [pyTruthy, hs] at h
      rw [← h]
    · simp [pyTruthy, hs] at h
  | vlist l =>
    by_cases hl : l.isEmpty
    · simp [pyTruthy, hl] at h
      rw [← h]
    · simp [pyTruthy, hl] at h
  | vdict m =>
    by_cases hm : m.isEmpty
    · simp [pyTruthy, hm] at h
      rw [← h]
    · simp [pyTruthy, hm] at h
      rw [← h]
      exact deepMerge_lookup_none m d k (hv m rfl)

/-- An override layer holding a duplicate-free mapping forces its value at
any key whose layer value is not itself a mapping. -/
theorem mergeLayer_lookup_some (d : PyDict) (B : PyDict) (d' : PyDict) (k : String) (w : Val)
    (h : mergeLayer d (Val.vdict B) = Except.ok d')
    (hnd : (B.map Prod.fst).Nodup)
    (hw : lookupKey B k = some w)
    (hwnd : ∀ sv, w ≠ Val.vdict sv) :
    lookupKey d' k = some w := by
  have hBne : ¬ B.isEmpty := by
    intro hB
    rw [List.isEmpty_iff] at hB
    subst hB
    simp [lookupKey] at hw
  unfold mergeLayer addAdditionalMetadata at h
  simp [pyTruthy, hBne] at h
  rw [← h]
  rw [deepMerge_lookup_some B d k w hnd hw]
  cases hld : lookupKey d k with
  | none => rfl
  | some dd => simp [mergeVal_of_not_dict dd w hwnd]

/-- Test fixture: a post carrying a nested post-embedded override layer
under the key extra, used against an external layer that also sets extra. -/
def examplePostC2 : PyDict :=
  [("title", Val.vstr "Hello World"), ("date", Val.vstr "2022-08-01"),
   ("author", Val.vstr "stephen"), ("tags", Val.vstr "tech science"),
   ("license", Val.vstr "mit"), ("doi", Val.vstr "10.1234/blog-SGVsbG"),
   ("doi-additional-metadata", Val.vdict [("extra", Val.vdict [("b", Val.vstr "2")])])]

/-- C2, counterexample: with external overrides setting extra to the
mapping holding a, and post-embedded overrides setting extra to the
mapping holding b, the assembled record's extra is the deep merge of the
two mappings, not the post-embedded value: the claim that for every key
set in both layers the post-embedded value wins fails at this input. -/
theorem C2_counterexample_nested_mapping :
    resourceLookup
      (Pkg.assembleMetadata exDateParse exampleBlog examplePostC2 exampleAuthor
        (Val.vdict [("extra", Val.vdict [("a", Val.vstr "1")])]))
      "extra" = some (Val.vdict [("a", Val.vstr "1"), ("b", Val.vstr "2")]) ∧
    some (Val.vdict [("a", Val.vstr "1"), ("b", Val.vstr "2")]) ≠
      some (Val.vdict [("b", Val.vstr "2")]) := by
  constructor
  · simp [Pkg.assembleMetadata, Pkg.assembleFixed, bind, Except.bind, pure, Except.pure,
      getMdIdentifier, getMdCreators, getMdTitles, getMdPublicationYear, getMdPublisher,
      getMdVersion, getMdRightsListWith, getMdSubjects, getMdDescriptions, getMdRelToBlog,
      getMdSchema, getMdResourceType, getMdLanguage, getMdFormats,
      reqKey, lookupKey, pyUpdate, setKey, parseLicenseWith, pyLower, pyLowerChar,
      exDateParse, exampleBlog, examplePostC2, exampleAuthor, padNat,
      pySplitWs, pySplitWs.go, pyStr, mergeLayer, addAdditionalMetadata, pyTruthy,
      deepMerge_nil, deepMerge_cons, mergeVal, descSection, resourceLookup]
  · simp

/-- C2 (amended): assembleMetadata merges the externally supplied override
layer first and the post-embedded doi-additional-metadata layer second, so
for every key set in the post-embedded layer whose value there is not
itself a mapping, that post-embedded value wins in the assembled record
(keys whose values are mappings in both layers are deep-merged instead). -/
theorem C2_post_layer_wins_on_leaves (pd : DateParser) (blog post author : PyDict)
    (am : Val) (B : PyDict) (k : String) (w : Val)
    (hsucc : (Pkg.assembleMetadata pd blog post author am).isOk = true)
    (hdam : lookupKey post "doi-additional-metadata" = some (Val.vdict B))
    (hnd : (B.map Prod.fst).Nodup)
    (hw : lookupKey B k = some w)
    (hwnd : ∀ sv, w ≠ Val.vdict sv) :
    resourceLookup (Pkg.assembleMetadata pd blog post author am) k = some w := by
  cases hres : Pkg.assembleMetadata pd blog post author am with
  | error e => rw [hres] at hsucc; simp [Except.isOk, Except.toBool] at hsucc
  | ok r =>
    have hres' := hres
    unfold Pkg.assembleMetadata at hres'
    cases hbase : Pkg.assembleFixed pd blog post author with
    | error e => rw [hbase] at hres'; simp [bind, Except.bind] at hres'
    | ok base =>
    rw [hbase] at hres'
    simp only [bind, Except.bind] at hres'
    cases hml1 : mergeLayer base am with
    | error e => rw [hml1] at hres'; simp at hres'
    | ok aE =>
    rw [hml1, hdam] at hres'
    simp only [] at hres'
    cases hml2 : mergeLayer aE (Val.vdict B) with
    | error e => rw [hml2] at hres'; simp at hres'
    | ok aP =>
    rw [hml2] at hres'
    simp only [pure, Except.pure, Except.ok.injEq] at hres'
    have hlookup : lookupKey aP k = some w :=
      mergeLayer_lookup_some aE B aP k w hml2 hnd hw hwnd
    rw [← hres']
    simp [resourceLookup, hlookup]

/-- Test fixture: the version-precedence post of the spec, embedding a
post-level version override. -/
def examplePostC2v : PyDict :=
  [("title", Val.vstr "Hello World"), ("date", Val.vstr "2022-08-01"),
   ("author", Val.vstr "stephen"), ("tags", Val.vstr "tech science"),
   ("license", Val.vstr "mit"), ("doi", Val.vstr "10.1234/blog-SGVsbG"),
   ("doi-additional-metadata", Val.vdict [("version", Val.vstr "3.0")])]

/-- Closed instantiation of the amended merge-precedence theorem: with
external overrides version 2.0 and post-embedded overrides version 3.0 the
assembled record's version is 3.0. -/
theorem C2_post_layer_wins_on_leaves_witness :
    resourceLookup
      (Pkg.assembleMetadata exDateParse exampleBlog examplePostC2v exampleAuthor
        (Val.vdict [("version", Val.vstr "2.0")]))
      "version" = some (Val.vstr "3.0") := by
  refine C2_post_layer_wins_on_leaves exDateParse exampleBlog examplePostC2v exampleAuthor
    (Val.vdict [("version", Val.vstr "2.0")]) [("version", Val.vstr "3.0")] "version"
    (Val.vstr "3.0") ?_ rfl (by simp) rfl (fun sv h => Val.noConfusion h)
  simp [Pkg.assembleMetadata, Pkg.assembleFixed, bind, Except.bind, pure, Except.pure,
    getMdIdentifier, getMdCreators, getMdTitles, getMdPublicationYear, getMdPublisher,
    getMdVersion, getMdRightsListWith, getMdSubjects, getMdDescriptions, getMdRelToBlog,
    getMdSchema, getMdResourceType, getMdLanguage, getMdFormats,
    reqKey, lookupKey, pyUpdate, setKey, parseLicenseWith, pyLower, pyLowerChar,
    exDateParse, exampleBlog, examplePostC2v, exampleAuthor, padNat,
    pySplitWs, pySplitWs.go, pyStr, mergeLayer, addAdditionalMetadata, pyTruthy,
    deepMerge_nil, deepMerge_cons, mergeVal, descSection, Except.isOk, Except.toBool]

/-- C8: the deep merge used for the override layers is non-destructive:
keys absent from the override are preserved with their target values,
keys mapping to nested mappings on both sides are merged key-by-key, and
only keys whose override value is a non-mapping leaf are overwritten with
the override value. Sibling preservation inside a nested mapping follows
by applying the second part to descend and the first part inside. -/
theorem C8_deepMerge_non_destructive :
    (∀ (dest src : PyDict) (k : String),
       lookupKey src k = none →
       lookupKey (deepMerge dest src) k = lookupKey dest k) ∧
    (∀ (dest src : PyDict) (k : String) (dv sv : PyDict),
       (src.map Prod.fst).Nodup →
       lookupKey dest k = some (Val.vdict dv) →
       lookupKey src k = some (Val.vdict sv) →
       lookupKey (deepMerge dest src) k = some (Val.vdict (deepMerge dv sv))) ∧
    (∀ (dest src : PyDict) (k : String) (v : Val),
       (src.map Prod.fst).Nodup →
       lookupKey src k = some v → (∀ sv, v ≠ Val.vdict sv) →
       lookupKey (deepMerge dest src) k = some v) := by
  refine ⟨fun dest src k h => deepMerge_lookup_none src dest k h, ?_, ?_⟩
  · intro dest src k dv sv hnd hdest hsrc
    rw [deepMerge_lookup_some src dest k _ hnd hsrc, hdest]
    simp [mergeVal]
  · intro dest src k v hnd hsrc hv
    rw [deepMerge_lookup_some src dest k v hnd hsrc]
    cases hld : lookupKey dest k with
    | none => rfl
    | some dd => simp [mergeVal_of_not_dict dd v hv]

/-- Test fixture: the creator mapping of the scenario author. -/
def exCreator : PyDict :=
  [("creatorName", Val.vdict [("@nameType", Val.vstr "Personal"),
                              ("#text", Val.vstr "Stephen King")]),
   ("givenName", Val.vstr "Stephen"), ("familyName", Val.vstr "King"),
   ("affiliation", Val.vstr "Acme Labs")]

/-- Test fixture: an override replacing only the given name. -/
def exCreatorOverride : PyDict :=
  [("givenName", Val.vstr "Maria")]

/-- Closed instantiation of the non-destructive merge theorem: overriding
only givenName replaces it and keeps the sibling familyName. -/
theorem C8_deepMerge_non_destructive_witness :
    lookupKey (deepMerge exCreator exCreatorOverride) "givenName" = some (Val.vstr "Maria") ∧
    lookupKey (deepMerge exCreator exCreatorOverride) "familyName" = some (Val.vstr "King") :=
  ⟨C8_deepMerge_non_destructive.2.2 exCreator exCreatorOverride "givenName" (Val.vstr "Maria")
     (by simp [exCreatorOverride]) rfl (fun sv h => Val.noConfusion h),
   C8_deepMerge_non_destructive.1 exCreator exCreatorOverride "familyName" rfl⟩

/-- Shape of a successful identifier section. -/
theorem getMdIdentifier_shape (post : PyDict) (a : PyDict)
    (h : getMdIdentifier post = Except.ok a) : ∃ v, a = [("identifier", v)] := by
  unfold getMdIdentifier at h
  obtain ⟨doi, _, h2⟩ := exceptBind_ok _ _ _ h
  simp [pure, Except.pure] at h2
  exact ⟨_, h2.symm⟩

/-- Shape of a successful creators section. -/
theorem getMdCreators_shape (blog author : PyDict) (a : PyDict)
    (h : getMdCreators blog author = Except.ok a) : ∃ v, a = [("creators", v)] := by
  unfold getMdCreators at h
  obtain ⟨n, _, h⟩ := exceptBind_ok _ _ _ h
  obtain ⟨fn, _, h⟩ := exceptBind_ok _ _ _ h
  obtain ⟨ln, _, h⟩ := exceptBind_ok _ _ _ h
  obtain ⟨oc, _, h⟩ := exceptBind_ok _ _ _ h
  obtain ⟨af, _, h⟩ := exceptBind_ok _ _ _ h
  simp [pure, Except.pure] at h
  exact ⟨_, h.symm⟩

/-- Shape of a successful titles section. -/
theorem getMdTitles_shape (post : PyDict) (a : PyDict)
    (h : getMdTitles post = Except.ok a) : ∃ v, a = [("titles", v)] := by
  unfold getMdTitles at h
  obtain ⟨t, _, h2⟩ := exceptBind_ok _ _ _ h
  simp [pure, Except.pure] at h2
  exact ⟨_, h2.symm⟩

/-- Shape of a successful publication-year section. -/
theorem getMdPublicationYear_shape (pd : DateParser) (post : PyDict) (a : PyDict)
    (h : getMdPublicationYear pd post = Except.ok a) : ∃ v, a = [("publicationYear", v)] := by
  unfold getMdPublicationYear at h
  obtain ⟨d, _, h2⟩ := exceptBind_ok _ _ _ h
  cases d with
  | vstr ds =>
    have h3 : (match pd ds with
               | some dt => (pure [("publicationYear", Val.vstr (padNat 4 dt.year))] :
                   Except PyErr PyDict)
               | none => Except.error (PyErr.attributeError "strftime")) = Except.ok a := h2
    cases hpd : pd ds with
    | some dt =>
      rw [hpd] at h3
      simp [pure, Except.pure] at h3
      exact ⟨_, h3.symm⟩
    | none => rw [hpd] at h3; simp at h3
  | vnull => simp at h2
  | vlist l => simp at h2
  | vdict m => simp at h2

/-- Shape of a successful publisher section. -/
theorem getMdPublisher_shape (blog : PyDict) (a : PyDict)
    (h : getMdPublisher blog = Except.ok a) : ∃ v, a = [("publisher", v)] := by
  unfold getMdPublisher at h
  obtain ⟨p, _, h2⟩ := exceptBind_ok _ _ _ h
  simp [pure, Except.pure] at h2
  exact ⟨_, h2.symm⟩

/-- Shape of a successful rights section. -/
theorem getMdRightsListWith_shape (e : PyErr) (post : PyDict) (a : PyDict)
    (h : getMdRightsListWith e post = Except.ok a) : ∃ v, a = [("rightsList", v)] := by
  unfold getMdRightsListWith at h
  obtain ⟨r, _, h2⟩ := exceptBind_ok _ _ _ h
  simp [pure, Except.pure] at h2
  exact ⟨_, h2.symm⟩

/-- Shape of a successful subjects section. -/
theorem getMdSubjects_shape (post : PyDict) (a : PyDict)
    (h : getMdSubjects post = Except.ok a) : ∃ v, a = [("subjects", v)] := by
  unfold getMdSubjects at h
  obtain ⟨t, _, h2⟩ := exceptBind_ok _ _ _ h
  cases t with
  | vstr ts =>
    simp [pure, Except.pure] at h2
    exact ⟨_, h2.symm⟩
  | vnull => simp at h2
  | vlist l => simp at h2
  | vdict m => simp at h2

/-- In the fixed part of the package assembler, the descriptions key is
present exactly when the post carries an abstract, holding the abstract
section. -/
theorem assembleFixed_lookup_descriptions (pd : DateParser)
    (blog post author : PyDict) (base : PyDict)
    (h : Pkg.assembleFixed pd blog post author = Except.ok base) :
    lookupKey base "descriptions" = (lookupKey post "abstract").map descSection := by
  unfold Pkg.assembleFixed at h
  obtain ⟨sIdent, hIdent, h⟩ := exceptBind_ok _ _ _ h
  obtain ⟨sCreators, hCreators, h⟩ := exceptBind_ok _ _ _ h
  obtain ⟨sTitles, hTitles, h⟩ := exceptBind_ok _ _ _ h
  obtain ⟨sYear, hYear, h⟩ := exceptBind_ok _ _ _ h
  obtain ⟨sPublisher, hPublisher, h⟩ := exceptBind_ok _ _ _ h
  obtain ⟨sRights, hRights, h⟩ := exceptBind_ok _ _ _ h
  obtain ⟨sSubjects, hSubjects, h⟩ := exceptBind_ok _ _ _ h
  obtain ⟨v1, hv1⟩ := getMdIdentifier_shape _ _ hIdent
  obtain ⟨v2, hv2⟩ := getMdCreators_shape _ _ _ hCreators
  obtain ⟨v3, hv3⟩ := getMdTitles_shape _ _ hTitles
  obtain ⟨v4, hv4⟩ := getMdPublicationYear_shape _ _ _ hYear
  obtain ⟨v5, hv5⟩ := getMdPublisher_shape _ _ hPublisher
  obtain ⟨v6, hv6⟩ := getMdRightsListWith_shape _ _ _ hRights
  obtain ⟨v7, hv7⟩ := getMdSubjects_shape _ _ hSubjects
  subst hv1 hv2 hv3 hv4 hv5 hv6 hv7
  simp only [pure, Except.pure, Except.ok.injEq] at h
  rw [← h]
  cases habs : lookupKey post "abstract" with
  | none =>
    cases hdoi : lookupKey blog "doi" with
    | none =>
      simp [getMdDescriptions, getMdRelToBlog, habs, hdoi, pyUpdate, setKey, lookupKey,
        getMdSchema, getMdResourceType, getMdLanguage, getMdFormats, getMdVersion]
    | some w =>
      simp [getMdDescriptions, getMdRelToBlog, habs, hdoi, pyUpdate, setKey, lookupKey,
        getMdSchema, getMdResourceType, getMdLanguage, getMdFormats, getMdVersion]
  | some a =>
    cases hdoi : lookupKey blog "doi" with
    | none =>
      simp [getMdDescriptions, getMdRelToBlog, habs, hdoi, pyUpdate, setKey, lookupKey,
        getMdSchema, getMdResourceType, getMdLanguage, getMdFormats, getMdVersion]
    | some w =>
      simp [getMdDescriptions, getMdRelToBlog, habs, hdoi, pyUpdate, setKey, lookupKey,
        getMdSchema, getMdResourceType, getMdLanguage, getMdFormats, getMdVersion]

/-- Test fixture: a post without an abstract whose embedded override layer
smuggles in a descriptions key. -/
def examplePostC9 : PyDict :=
  [("title", Val.vstr "Hello World"), ("date", Val.vstr "2022-08-01"),
   ("author", Val.vstr "stephen"), ("tags", Val.vstr "tech science"),
   ("license", Val.vstr "mit"), ("doi", Val.vstr "10.1234/blog-SGVsbG"),
   ("doi-additional-metadata", Val.vdict [("descriptions", Val.vstr "sneaky")])]

/-- C9, counterexample: a post that contains no abstract key can still
produce a record with a descriptions section, because the override layers
are merged after the fixed sections; the claim quantified over every post
mapping fails at this input. -/
theorem C9_counterexample_override_descriptions :
    lookupKey examplePostC9 "abstract" = none ∧
    resourceLookup
      (Pkg.assembleMetadata exDateParse exampleBlog examplePostC9 exampleAuthor
        (Val.vdict []))
      "descriptions" = some (Val.vstr "sneaky") ∧
    some (Val.vstr "sneaky") ≠ (none : Option Val) := by
  refine ⟨rfl, ?_, by simp⟩
  simp [Pkg.assembleMetadata, Pkg.assembleFixed, bind, Except.bind, pure, Except.pure,
    getMdIdentifier, getMdCreators, getMdTitles, getMdPublicationYear, getMdPublisher,
    getMdVersion, getMdRightsListWith, getMdSubjects, getMdDescriptions, getMdRelToBlog,
    getMdSchema, getMdResourceType, getMdLanguage, getMdFormats,
    reqKey, lookupKey, pyUpdate, setKey, parseLicenseWith, pyLower, pyLowerChar,
    exDateParse, exampleBlog, examplePostC9, exampleAuthor, padNat,
    pySplitWs, pySplitWs.go, pyStr, mergeLayer, addAdditionalMetadata, pyTruthy,
    deepMerge_nil, deepMerge_cons, mergeVal, descSection, resourceLookup]

/-- C9 (amended): when neither override layer supplies a descriptions key,
the record assembled for a post without an abstract has no descriptions
section, and for a post with an abstract it has the abstract section built
from that text. -/
theorem C9_descriptions_tracks_abstract (pd : DateParser) (blog post author : PyDict)
    (am : Val)
    (hsucc : (Pkg.assembleMetadata pd blog post author am).isOk = true)
    (hext : ∀ m, am = Val.vdict m → lookupKey m "descriptions" = none)
    (hdam : ∀ m, lookupKey post "doi-additional-metadata" = some (Val.vdict m) →
      lookupKey m "descriptions" = none) :
    resourceLookup (Pkg.assembleMetadata pd blog post author am) "descriptions" =
      (lookupKey post "abstract").map descSection := by
  cases hres : Pkg.assembleMetadata pd blog post author am with
  | error e => rw [hres] at hsucc; simp [Except.isOk, Except.toBool] at hsucc
  | ok r =>
    have hres' := hres
    unfold Pkg.assembleMetadata at hres'
    cases hbase : Pkg.assembleFixed pd blog post author with
    | error e => rw [hbase] at hres'; simp [bind, Except.bind] at hres'
    | ok base =>
    rw [hbase] at hres'
    simp only [bind, Except.bind] at hres'
    cases hml1 : mergeLayer base am with
    | error e => rw [hml1] at hres'; simp at hres'
    | ok aE =>
    rw [hml1] at hres'
    have haE : lookupKey aE "descriptions" = lookupKey base "descriptions" :=
      mergeLayer_lookup_none base am aE "descriptions" hml1 hext
    have hbaseD : lookupKey base "descriptions" = (lookupKey post "abstract").map descSection :=
      assembleFixed_lookup_descriptions pd blog post author base hbase
    cases hdamv : lookupKey post "doi-additional-metadata" with
    | none =>
      rw [hdamv] at hres'
      simp only [pure, Except.pure, Except.ok.injEq] at hres'
      rw [← hres']
      simp [resourceLookup, haE, hbaseD]
    | some v =>
      rw [hdamv] at hres'
      simp only [] at hres'
      cases hml2 : mergeLayer aE v with
      | error e => rw [hml2] at hres'; simp at hres'
      | ok aP =>
      rw [hml2] at hres'
      simp only [pure, Except.pure, Except.ok.injEq] at hres'
      have haP : lookupKey aP "descriptions" = lookupKey aE "descriptions" :=
        mergeLayer_lookup_none aE v aP "descriptions" hml2
          (fun m hm => hdam m (by rw [hdamv, hm]))
      rw [← hres']
      simp [resourceLookup, haP, haE, hbaseD]

/-- Test fixture: the scenario post carrying an abstract. -/
def examplePostAbstract : PyDict :=
  [("title", Val.vstr "Hello World"), ("date", Val.vstr "2022-08-01"),
   ("author", Val.vstr "stephen"), ("tags", Val.vstr "tech science"),
   ("license", Val.vstr "mit"), ("doi", Val.vstr "10.1234/blog-SGVsbG"),
   ("abstract", Val.vstr "A greeting.")]

/-- Closed instantiation of the descriptions theorem: a post without an
abstract yields no descriptions section, one with an abstract yields the
abstract section. -/
theorem C9_descriptions_tracks_abstract_witness :
    resourceLookup
      (Pkg.assembleMetadata exDateParse exampleBlog examplePostNoLicense exampleAuthor
        (Val.vdict []))
      "descriptions" = none ∧
    resourceLookup
      (Pkg.assembleMetadata exDateParse exampleBlog examplePostAbstract exampleAuthor
        (Val.vdict []))
      "descriptions" = some (descSection (Val.vstr "A greeting.")) := by
  constructor
  · have h := C9_descriptions_tracks_abstract exDateParse exampleBlog examplePostNoLicense
      exampleAuthor (Val.vdict [])
      (by simp [Pkg.assembleMetadata, Pkg.assembleFixed, bind, Except.bind, pure, Except.pure,
        getMdIdentifier, getMdCreators, getMdTitles, getMdPublicationYear, getMdPublisher,
        getMdVersion, getMdRightsListWith, getMdSubjects, getMdDescriptions, getMdRelToBlog,
        getMdSchema, getMdResourceType, getMdLanguage, getMdFormats,
        reqKey, lookupKey, pyUpdate, setKey, parseLicenseWith, pyLower, pyLowerChar,
        exDateParse, exampleBlog, examplePostNoLicense, exampleAuthor, padNat,
        pySplitWs, pySplitWs.go, pyStr, mergeLayer, addAdditionalMetadata, pyTruthy,
        deepMerge_nil, deepMerge_cons, mergeVal, descSection, Except.isOk, Except.toBool])
      (by intro m hm; cases hm; rfl)
      (by intro m hm; simp [examplePostNoLicense, lookupKey] at hm)
    simpa [examplePostNoLicense, lookupKey] using h
  · have h := C9_descriptions_tracks_abstract exDateParse exampleBlog examplePostAbstract
      exampleAuthor (Val.vdict [])
      (by simp [Pkg.assembleMetadata, Pkg.assembleFixed, bind, Except.bind, pure, Except.pure,
        getMdIdentifier, getMdCreators, getMdTitles, getMdPublicationYear, getMdPublisher,
        getMdVersion, getMdRightsListWith, getMdSubjects, getMdDescriptions, getMdRelToBlog,
        getMdSchema, getMdResourceType, getMdLanguage, getMdFormats,
        reqKey, lookupKey, pyUpdate, setKey, parseLicenseWith, pyLower, pyLowerChar,
        exDateParse, exampleBlog, examplePostAbstract, exampleAuthor, padNat,
        pySplitWs, pySplitWs.go, pyStr, mergeLayer, addAdditionalMetadata, pyTruthy,
        deepMerge_nil, deepMerge_cons, mergeVal, descSection, Except.isOk, Except.toBool])
      (by intro m hm; cases hm; rfl)
      (by intro m hm; simp [examplePostAbstract, lookupKey] at hm)
    simpa [examplePostAbstract, lookupKey] using h

/-- Python str.rstrip with a slash argument: remove all trailing slashes. -/
def pyRstripSlashes (s : String) : String :=
  String.mk ((s.data.reverse.dropWhile (fun c => c = '/')).reverse)

/-- Index of the last dot in a character list, if any. -/
def lastDotIdx : List Char → Option Nat
  | [] => none
  | c :: rest =>
    match lastDotIdx rest with
    | some i => some (i + 1)
    | none => if c = '.' then some 0 else none

/-- The stem of a path, as pathlib.PurePath(p).stem: the final path
component with its suffix removed; the suffix starts at the last dot when
that dot is neither the first nor the last character of the name. -/
def pathStem (p : String) : String :=
  let noTrail := (p.data.reverse.dropWhile (fun c => c = '/')).reverse
  let name := (noTrail.reverse.takeWhile (fun c => c ≠ '/')).reverse
  match lastDotIdx name with
  | some i => if 0 < i ∧ i < name.length - 1 then String.mk (name.take i) else String.mk name
  | none => String.mk name

/-- Match one to two digits followed by a dash (the month and day pieces of
the filename regex), consuming them; greedy with the backtracking order of
the regex engine. -/
def matchNum12Dash : List Char → Option (List Char)
  | a :: b :: c :: rest =>
    if a.isDigit ∧ b.isDigit ∧ c = '-' then some rest
    else if a.isDigit ∧ b = '-' then some (c :: rest)
    else none
  | [a, b] => if a.isDigit ∧ b = '-' then some [] else none
  | _ => none

/-- Match the full dated-prefix regex at the start of the list; on success
return the second capture group, the rest of the string. -/
def matchDateSlugAt : List Char → Option (List Char)
  | c1 :: c2 :: c3 :: c4 :: '-' :: rest =>
    if c1.isDigit ∧ c2.isDigit ∧ c3.isDigit ∧ c4.isDigit then
      match matchNum12Dash rest with
      | some rest2 =>
        match matchNum12Dash rest2 with
        | some rest3 => some rest3
        | none => none
      | none => none
    else none
  | _ => none

/-- re.search for the pattern of genPermalink: scan left to right for the
first position where the dated prefix matches, and return the second
capture group (everything after the prefix). -/
def reSearchDateSlug : List Char → Option (List Char)
  | [] => none
  | c :: rest =>
    match matchDateSlugAt (c :: rest) with
    | some g2 => some g2
    | none => reSearchDateSlug rest

/-- The permalink date, strftime with the year/month/day directives. -/
def fmtYMD (d : Date) : String :=
  padNat 4 d.year ++ "/" ++ padNat 2 d.month ++ "/" ++ padNat 2 d.day

namespace StdAlone

/-- genPermalink of doi-jekyll.py (lines 230-243): strip trailing slashes
from the blog url, format the parsed post date, strip the dated prefix
from the filename stem and compose the permalink. When the stem has no
dated prefix, group(2) is called on None, an AttributeError. -/
def genPermalink (pd : DateParser) (data_blog : PyDict) (post_filename : String)
    (data_post : PyDict) : Except PyErr String := do
  let urlv ← reqKey data_blog "url"
  let url_base ←
    match urlv with
    | Val.vstr u => pure (pyRstripSlashes u)
    | _ => Except.error (PyErr.attributeError "rstrip")
  let datev ← reqKey data_post "date"
  let post_date_formatted ←
    match datev with
    | Val.vstr ds =>
      match pd ds with
      | some dt => pure (fmtYMD dt)
      | none => Except.error (PyErr.attributeError "strftime")
    | _ => Except.error (PyErr.typeErr "dateparser.parse")
  match reSearchDateSlug (pathStem post_filename).data with
  | some g2 => pure (url_base ++ "/" ++ post_date_formatted ++ "/" ++ String.mk g2 ++ ".html")
  | none => Except.error (PyErr.attributeError "group")

end StdAlone

namespace Pkg

/-- genPermalink of doijekyll/doijekyll.py (lines 82-101): same url and
date handling, and the regex search over the stem is computed, but its
result is never used: the cleaned stem is the hard-coded placeholder asf
(the code consuming the match is commented out in the source). -/
def genPermalink (pd : DateParser) (data_blog : PyDict) (post_filename : String)
    (data_post : PyDict) : Except PyErr String := do
  let urlv ← reqKey data_blog "url"
  let url_base ←
    match urlv with
    | Val.vstr u => pure (pyRstripSlashes u)
    | _ => Except.error (PyErr.attributeError "rstrip")
  let datev ← reqKey data_post "date"
  let post_date_formatted ←
    match datev with
    | Val.vstr ds =>
      match pd ds with
      | some dt => pure (fmtYMD dt)
      | none => Except.error (PyErr.attributeError "strftime")
    | _ => Except.error (PyErr.typeErr "dateparser.parse")
  let _ := reSearchDateSlug (pathStem post_filename).data
  let post_filename_clean := "asf"
  pure (url_base ++ "/" ++ post_date_formatted ++ "/" ++ post_filename_clean ++ ".html")

end Pkg

/-- C5: at the scenario input the package permalink deriver ignores the
cleaned stem and produces the placeholder asf, while the standalone
implementation of the same function produces the claimed permalink; the
claimed formula fails on the package implementation. -/
theorem C5_pkg_permalink_uses_placeholder :
    Pkg.genPermalink exDateParse exampleBlog "2022-08-01-hello-world.md"
      examplePostNoLicense = Except.ok "https://blog.acme.com/2022/08/01/asf.html" ∧
    StdAlone.genPermalink exDateParse exampleBlog "2022-08-01-hello-world.md"
      examplePostNoLicense = Except.ok "https://blog.acme.com/2022/08/01/hello-world.html" ∧
    ("https://blog.acme.com/2022/08/01/asf.html" : String) ≠
      "https://blog.acme.com/2022/08/01/hello-world.html" := by
  refine ⟨rfl, rfl, by decide⟩

/-- Network and filesystem side effects of one workflow run. -/
inductive Event where
  | putMetadata : Event
  | putUrl : Event
  | writePost : Event

/-- Result of one workflow run: the outcome, the side effects performed in
order, and the final state of the in-memory post record. -/
structure RunOut where
  outcome : Except PyErr Unit
  events : List Event
  finalPost : PyDict

/-- parseCredentials, identical in both entry points: print a hint and
exit when the username or password is absent. -/
def parseCredentials (user password : Option String) : Except PyErr (String × String) :=
  match user with
  | none => Except.error (PyErr.exitMsg "Please provide DataCite username (--user or  $DJ_DATACITE_USER)")
  | some u =>
    match password with
    | none => Except.error (PyErr.exitMsg "Please provide DataCite password (--password or $DJ_DATACITE_PASSWORD)")
    | some p => Except.ok (u, p)

/-- collectBlogData, identical in both entry points: the doi_jekyll block
of the configuration, with the site url added under the url key. -/
def collectBlogData (all_yaml : PyDict) : Except PyErr PyDict := do
  let doi_yaml ← reqKey all_yaml "doi_jekyll"
  match doi_yaml with
  | Val.vdict d => do
    let url ← reqKey all_yaml "url"
    pure (setKey d "url" url)
  | _ => Except.error (PyErr.typeErr "mapping unpacking")

/-- The module-level names of doi-jekyll.py (imports, classes, functions
and the names bound in the entry block), for Python name resolution. -/
def stdModuleNames : List String :=
  ["os", "sys", "json", "yaml", "base64", "datetime", "argparse", "logging", "PurePath",
   "requests", "xmltodict", "frontmatter", "dateparser",
   "CustomRawDescriptionArgumentDefaultsHelpFormatter", "parseCredentials", "collectBlogData",
   "collectPostData", "collectAuthorData", "genDoi", "parseLicense", "getMdSchema",
   "getMdIdentifier", "getMdCreators", "getMdTitles", "getMdPublicationYear", "getMdPublisher",
   "getMdResourceType", "getMdLanguage", "getMdFormats", "getMdVersion", "getMdRightsList",
   "getMdSubjects", "getMdDescriptions", "assembleMetadata", "registerMetadata",
   "genPermalink", "registerUrl", "updateBlogpostMarkdown", "main",
   "parser", "args", "logging_levels", "logging_level_cleaned"]

/-- The local names bound in main of doi-jekyll.py when the check after
the metadata registration runs. -/
def mainStdLocalsAtMdCheck : List String :=
  ["args", "dc_user", "dc_password", "raw_data_blog", "raw_data_post", "raw_data_author",
   "dj_data_json", "dj_data_xml", "dj_regMd_result"]

/-- Evaluation of the expression debug.ok in main: Python resolves the
name debug against the locals, the module globals and the builtins (which
hold no such name either), so the expression raises NameError. -/
def evalDebugOk : Except PyErr Bool :=
  if (mainStdLocalsAtMdCheck ++ stdModuleNames).contains "debug" then
    Except.error (PyErr.attributeError "ok")
  else Except.error (PyErr.nameError "debug")

/-- The message of the early exit for an already-registered post. -/
def doiExistsMsg (post : PyDict) : String :=
  "DOI already exists for blog post (" ++ pyStr ((lookupKey post "doi").getD Val.vnull) ++
    "). Launch with \"-f\" to force overwrite."

/-- Python keyword-call check: the first required parameter that the
provided keyword arguments do not cover, if any; such a call raises
TypeError before the function body runs. -/
def pyCallCheckKwargs (required provided : List String) : Option String :=
  required.find? (fun r => !(provided.contains r))

namespace StdAlone

/-- main of doi-jekyll.py (lines 281-340), over explicit inputs: the
already-read configuration, post and author mappings, the parsed CLI
options, the external date parser and the two registry response statuses.
File reads, logging and serialization are external collaborators; the
events list records the network calls and the post rewrite in order. -/
def main (pd : DateParser) (user password : Option String)
    (force dryRun skipUrl : Bool) (config post author : PyDict)
    (postFilename : String) (mdOk urlOk : Bool) : RunOut :=
  match parseCredentials user password with
  | Except.error e => ⟨Except.error e, [], post⟩
  | Except.ok _ =>
  match collectBlogData config with
  | Except.error e => ⟨Except.error e, [], post⟩
  | Except.ok blog =>
  match reqKey post "author" with
  | Except.error e => ⟨Except.error e, [], post⟩
  | Except.ok _ =>
  if hasKey post "doi" && !force then
    ⟨Except.error (PyErr.exitMsg (doiExistsMsg post)), [], post⟩
  else
  match reqKey post "title" with
  | Except.error e => ⟨Except.error e, [], post⟩
  | Except.ok tv =>
  match reqKey blog "suffix_base" with
  | Except.error e => ⟨Except.error e, [], post⟩
  | Except.ok bv =>
  match reqKey blog "prefix" with
  | Except.error e => ⟨Except.error e, [], post⟩
  | Except.ok pv =>
  match tv with
  | Val.vstr title =>
    let doi := genDoi title (pyStr bv) (pyStr pv)
    let post1 := setKey post "doi" (Val.vstr doi)
    match StdAlone.assembleMetadata pd blog post1 author with
    | Except.error e => ⟨Except.error e, [], post1⟩
    | Except.ok _record =>
      if dryRun then
        ⟨Except.ok (), [], post1⟩
      else
        match reqKey blog "provider_url" with
        | Except.error e => ⟨Except.error e, [], post1⟩
        | Except.ok _ =>
          match evalDebugOk with
          | Except.error e => ⟨Except.error e, [Event.putMetadata], post1⟩
          | Except.ok b =>
            if !b then ⟨Except.error PyErr.systemExit, [Event.putMetadata], post1⟩
            else
              let writePhase := fun (evs : List Event) =>
                let post2 := setKey post1 "doi" (Val.vstr ("https://doi.org/" ++ doi))
                (⟨Except.ok (), evs ++ [Event.writePost], post2⟩ : RunOut)
              if skipUrl then writePhase [Event.putMetadata]
              else
                match StdAlone.genPermalink pd blog postFilename post1 with
                | Except.error e => ⟨Except.error e, [Event.putMetadata], post1⟩
                | Except.ok _url =>
                  match reqKey blog "provider_url" with
                  | Except.error e => ⟨Except.error e, [Event.putMetadata], post1⟩
                  | Except.ok _ =>
                    if !urlOk then
                      ⟨Except.error PyErr.systemExit, [Event.putMetadata, Event.putUrl], post1⟩
                    else writePhase [Event.putMetadata, Event.putUrl]
  | _ => ⟨Except.error (PyErr.attributeError "encode"), [], post⟩

end StdAlone

namespace Pkg

/-- main of doijekyll/doijekyll.py (lines 139-200): identical to the
standalone entry point up to the assembly step, but it calls the four
parameter metadata.assembleMetadata with only three keyword arguments, so
the call raises TypeError before anything after it can run; the branch in
which the call would proceed is unreachable, as the keyword sets are
fixed. -/
def main (pd : DateParser) (user password : Option String)
    (force dryRun skipUrl : Bool) (config post author : PyDict)
    (postFilename : String) (mdOk urlOk : Bool) : RunOut :=
  match parseCredentials user password with
  | Except.error e => ⟨Except.error e, [], post⟩
  | Except.ok _ =>
  match collectBlogData config with
  | Except.error e => ⟨Except.error e, [], post⟩
  | Except.ok blog =>
  match reqKey post "author" with
  | Except.error e => ⟨Except.error e, [], post⟩
  | Except.ok _ =>
  if hasKey post "doi" && !force then
    ⟨Except.error (PyErr.exitMsg (doiExistsMsg post)), [], post⟩
  else
  match reqKey post "title" with
  | Except.error e => ⟨Except.error e, [], post⟩
  | Except.ok tv =>
  match reqKey blog "suffix_base" with
  | Except.error e => ⟨Except.error e, [], post⟩
  | Except.ok bv =>
  match reqKey blog "prefix" with
  | Except.error e => ⟨Except.error e, [], post⟩
  | Except.ok pv =>
  match tv with
  | Val.vstr title =>
    let doi := genDoi title (pyStr bv) (pyStr pv)
    let post1 := setKey post "doi" (Val.vstr doi)
    match pyCallCheckKwargs ["data_blog", "data_post", "data_author", "additional_metadata"]
        ["data_blog", "data_post", "data_author"] with
    | some missing =>
      ⟨Except.error (PyErr.typeErr
        ("assembleMetadata() missing 1 required positional argument: " ++ missing)),
       [], post1⟩
    | none =>
      ⟨Except.error (PyErr.typeErr "unreachable"), [], post1⟩
  | _ => ⟨Except.error (PyErr.attributeError "encode"), [], post⟩

end Pkg

/-- Test fixture: the Jekyll configuration document of the scenario. -/
def exampleConfig : PyDict :=
  [("doi_jekyll", Val.vdict
     [("prefix", Val.vstr "10.1234"), ("suffix_base", Val.vstr "blog"),
      ("provider_url", Val.vstr "https://example.org"), ("publisher", Val.vstr "Acme"),
      ("affiliation", Val.vstr "Acme Labs")]),
   ("url", Val.vstr "https://blog.acme.com")]

/-- Test fixture: the scenario post before any identifier is assigned. -/
def examplePostFresh : PyDict :=
  [("title", Val.vstr "Hello World"), ("date", Val.vstr "2022-08-01"),
   ("author", Val.vstr "stephen"), ("tags", Val.vstr "tech science"),
   ("license", Val.vstr "mit")]

/-- C6: in a run that is not a dry run, the check after the metadata
registration call reads the undefined name debug instead of the response,
so the workflow aborts with a NameError no matter whether the registry
signalled ok: with an ok response (and also with a failure response) the
run stops right after the metadata PUT and never continues to the URL
registration. -/
theorem C6_ok_check_reads_undefined_name :
    (StdAlone.main exDateParse (some "user") (some "pass") false false false
       exampleConfig examplePostFresh exampleAuthor "2022-08-01-hello-world.md" true true =
     ⟨Except.error (PyErr.nameError "debug"), [Event.putMetadata],
      setKey examplePostFresh "doi" (Val.vstr (genDoi "Hello World" "blog" "10.1234"))⟩) ∧
    (StdAlone.main exDateParse (some "user") (some "pass") false false false
       exampleConfig examplePostFresh exampleAuthor "2022-08-01-hello-world.md" false true =
     ⟨Except.error (PyErr.nameError "debug"), [Event.putMetadata],
      setKey examplePostFresh "doi" (Val.vstr (genDoi "Hello World" "blog" "10.1234"))⟩) :=
  ⟨rfl, rfl⟩

/-- C7: a run against a post that already has a doi key, with the force
flag absent, exits with the explanatory message before performing any
network call and without mutating the post record, in both entry points. -/
theorem C7_existing_doi_early_exit (pd : DateParser) (user password : Option String)
    (dryRun skipUrl : Bool) (config post author : PyDict) (postFilename : String)
    (mdOk urlOk : Bool) (u pw : String) (blog : PyDict) (av : Val)
    (huser : user = some u) (hpass : password = some pw)
    (hblog : collectBlogData config = Except.ok blog)
    (hauthor : reqKey post "author" = Except.ok av)
    (hdoi : hasKey post "doi" = true) :
    StdAlone.main pd user password false dryRun skipUrl config post author postFilename
      mdOk urlOk = ⟨Except.error (PyErr.exitMsg (doiExistsMsg post)), [], post⟩ ∧
    Pkg.main pd user password false dryRun skipUrl config post author postFilename
      mdOk urlOk = ⟨Except.error (PyErr.exitMsg (doiExistsMsg post)), [], post⟩ := by
  subst huser hpass
  constructor <;>
    simp [StdAlone.main, Pkg.main, parseCredentials, hblog, hauthor, hdoi]

/-- Test fixture: the scenario post already carrying an identifier. -/
def examplePostWithDoi : PyDict :=
  [("title", Val.vstr "Hello World"), ("date", Val.vstr "2022-08-01"),
   ("author", Val.vstr "stephen"), ("tags", Val.vstr "tech science"),
   ("license", Val.vstr "mit"), ("doi", Val.vstr "https://doi.org/10.1234/blog-SGVsbG")]

/-- Closed instantiation of the early-exit theorem at the scenario inputs. -/
theorem C7_existing_doi_early_exit_witness :
    StdAlone.main exDateParse (some "user") (some "pass") false false false
      exampleConfig examplePostWithDoi exampleAuthor "2022-08-01-hello-world.md" true true =
      ⟨Except.error (PyErr.exitMsg (doiExistsMsg examplePostWithDoi)), [],
       examplePostWithDoi⟩ ∧
    Pkg.main exDateParse (some "user") (some "pass") false false false
      exampleConfig examplePostWithDoi exampleAuthor "2022-08-01-hello-world.md" true true =
      ⟨Except.error (PyErr.exitMsg (doiExistsMsg examplePostWithDoi)), [],
       examplePostWithDoi⟩ :=
  C7_existing_doi_early_exit exDateParse (some "user") (some "pass") false false
    exampleConfig examplePostWithDoi exampleAuthor "2022-08-01-hello-world.md" true true
    "user" "pass" exampleBlog (Val.vstr "stephen") rfl rfl rfl rfl rfl

/-- C10: in the packaged entry point every run that passes the credential
check and the existing-identifier check stops at the metadata-assembly
step with a TypeError for the missing required argument
additional_metadata, performing no registry call and no post rewrite (the
in-memory record has received the generated identifier just before the
failing call). -/
theorem C10_pkg_assembly_missing_argument (pd : DateParser) (user password : Option String)
    (force dryRun skipUrl : Bool) (config post author : PyDict) (postFilename : String)
    (mdOk urlOk : Bool) (u pw : String) (blog : PyDict) (av : Val) (title : String)
    (bv pv : Val)
    (huser : user = some u) (hpass : password = some pw)
    (hblog : collectBlogData config = Except.ok blog)
    (hauthor : reqKey post "author" = Except.ok av)
    (hcheck : hasKey post "doi" = false ∨ force = true)
    (htitle : reqKey post "title" = Except.ok (Val.vstr title))
    (hsb : reqKey blog "suffix_base" = Except.ok bv)
    (hpfx : reqKey blog "prefix" = Except.ok pv) :
    Pkg.main pd user password force dryRun skipUrl config post author postFilename
      mdOk urlOk =
      ⟨Except.error (PyErr.typeErr
         "assembleMetadata() missing 1 required positional argument: additional_metadata"),
       [], setKey post "doi" (Val.vstr (genDoi title (pyStr bv) (pyStr pv)))⟩ := by
  subst huser hpass
  rcases hcheck with hc | hc <;>
    simp [Pkg.main, parseCredentials, hblog, hauthor, hc, htitle, hsb, hpfx,
      pyCallCheckKwargs, List.find?, List.contains]

/-- Closed instantiation of the missing-argument theorem at the scenario
inputs. -/
theorem C10_pkg_assembly_missing_argument_witness :
    Pkg.main exDateParse (some "user") (some "pass") false false false
      exampleConfig examplePostFresh exampleAuthor "2022-08-01-hello-world.md" true true =
      ⟨Except.error (PyErr.typeErr
         "assembleMetadata() missing 1 required positional argument: additional_metadata"),
       [], setKey examplePostFresh "doi" (Val.vstr (genDoi "Hello World" "blog" "10.1234"))⟩ :=
  C10_pkg_assembly_missing_argument exDateParse (some "user") (some "pass") false false false
    exampleConfig examplePostFresh exampleAuthor "2022-08-01-hello-world.md" true true
    "user" "pass" exampleBlog (Val.vstr "stephen") "Hello World"
    (Val.vstr "blog") (Val.vstr "10.1234") rfl rfl rfl rfl (Or.inl rfl) rfl rfl rfl
